import Mathlib

/-!
Shallow embedding of `nbnak.py` (a Netbox export tool) and proofs about its
port-normalization algorithm, device resolution and error behaviour.

Python exceptions are modelled with `Except PyErr`; the HTTP layer (the
`requests` library, an external collaborator) is modelled as an oracle
carried by the `Netbox` structure, whose fields return either the decoded
result or a raised error, exactly as `Netbox.get` / `Netbox.filter` hand it
back to the callers (those wrappers contain no `try`, so every error from
the transport propagates to their caller unchanged).
-/

namespace Nbnak

/-- Error values the Python code can raise.  `assertionError` models
`raise AssertionError(...)` (the Python code passes a tuple of message parts;
we keep the fixed message text), `valueError` models the `ValueError` that
`int()` raises on an unparsable literal, `typeError` models `TypeError`,
and `transportError` stands for any exception raised below `requests.get`. -/
inductive PyErr where
  | assertionError (msg : String)
  | valueError (msg : String)
  | typeError (msg : String)
  | transportError (msg : String)
  deriving DecidableEq

/-- Value of the `tagged` attribute of a `Port`: either the literal string
`"all"` or a list of VLAN ids (`[ i['vid'] for i in o['tagged_vlans'] ]`). -/
inductive Tagged where
  | all
  | vlans (vids : List Nat)
  deriving DecidableEq

/-- Python truthiness of a `tagged` value: the string `"all"` is truthy,
a list is truthy iff non-empty. -/
def Tagged.truthy : Tagged → Bool
  | .all => true
  | .vlans l => !l.isEmpty

/-- The parts of `o['connected_endpoint']` the code reads:
`['device']['name']` and `['name']` for a `dcim.interface` endpoint,
`['circuit']['cid']` for a `circuits.circuittermination` endpoint. -/
structure Endpoint where
  device_name : String
  name : String
  circuit_cid : String
  deriving DecidableEq

/-- The parts of `o['lag']` the code reads: the parent interface name and id. -/
structure LagRef where
  name : String
  id : Nat
  deriving DecidableEq

/-- The fields of a raw Netbox interface record consumed by the code.
`description` uses `""` for both an empty and a null description (both are
falsy in Python and the field is only ever read when truthy);
`type_value` is `o['type']['value']`; `mode` is `o['mode']['value']` when
`o['mode']` is non-null, `none` when it is null; `untagged_vlan` is the
`vid` of `o['untagged_vlan']` when non-null; `tagged_vlans` is the list of
`vid`s, `[]` for a null or empty list (both falsy). -/
structure IfaceRecord where
  name : String
  enabled : Bool
  description : String
  mtu : Option Nat
  lag : Option LagRef
  connected_endpoint_type : Option String
  connected_endpoint : Option Endpoint
  type_value : String
  mode : Option String
  untagged_vlan : Option Nat
  tagged_vlans : List Nat
  deriving DecidableEq

/-- The mutable `Port` object of `nbnak.py`, with the same attributes and
the same initial values as `Port.__init__`.  `lag` is an `Int` because
Python's `int()` (used to parse the aggregation number) can return a
negative number. -/
structure Port where
  shutdown : Bool := true
  clean : Bool := true
  type : Option String := none
  descr : Option String := none
  mtu : Option Nat := none
  lag : Option Int := none
  lagmode : Option String := none
  untagged : Option Nat := none
  tagged : Option Tagged := none
  deriving DecidableEq

/-- The dictionary produced by `Port.to_dict`: each field is `some v` when
the corresponding key is present.  Keys never written stay `none`. -/
structure PortDoc where
  clean : Option Bool := none
  shutdown : Option Bool := none
  type : Option String := none
  descr : Option String := none
  mtu : Option Nat := none
  lag : Option Int := none
  lagmode : Option String := none
  untagged : Option Nat := none
  tagged : Option Tagged := none
  deriving DecidableEq

/-- Python truthiness of an optional string attribute: `None` and `""` are falsy. -/
def optStrTruthy : Option String → Bool
  | none => false
  | some s => !(s == "")

/-- Python truthiness of an optional non-negative integer attribute:
`None` and `0` are falsy. -/
def optNatTruthy : Option Nat → Bool
  | none => false
  | some n => !(n == 0)

/-- Python truthiness of an optional integer attribute: `None` and `0` are falsy. -/
def optIntTruthy : Option Int → Bool
  | none => false
  | some n => !(n == 0)

/-- Python truthiness of the optional `tagged` attribute. -/
def optTaggedTruthy : Option Tagged → Bool
  | none => false
  | some t => t.truthy

/-- `Port.to_dict`: a clean port serializes to the single key `clean: True`;
otherwise `shutdown` is written unconditionally and every other attribute is
written only when truthy. -/
def Port.to_dict (p : Port) : PortDoc :=
  if p.clean then { clean := some true }
  else
    { shutdown := some p.shutdown
      type := if optStrTruthy p.type then p.type else none
      descr := if optStrTruthy p.descr then p.descr else none
      mtu := if optNatTruthy p.mtu then p.mtu else none
      lag := if optIntTruthy p.lag then p.lag else none
      lagmode := if optStrTruthy p.lagmode then p.lagmode else none
      untagged := if optNatTruthy p.untagged then p.untagged else none
      tagged := if optTaggedTruthy p.tagged then p.tagged else none }

/-- Character-level string slice `s[n:]` of Python. -/
def strDrop (s : String) (n : Nat) : String :=
  String.mk (s.toList.drop n)

/-- `str.startswith` of Python. -/
def pyStartsWith (s pre : String) : Bool :=
  pre.toList.isPrefixOf s.toList

/-- Whitespace stripped by Python's `int(str)`. -/
def isPySpace (c : Char) : Bool :=
  c == ' ' || c == '\t' || c == '\n' || c == '\r' || c.toNat == 11 || c.toNat == 12

/-- Digit accumulation for `int()`; `none` when a non-digit appears. -/
def digitsToNat (l : List Char) : Option Nat :=
  l.foldl
    (fun acc c =>
      match acc with
      | none => none
      | some a => if '0' ≤ c && c ≤ '9' then some (a * 10 + (c.toNat - 48)) else none)
    (some 0)

/-- Digit accumulation for `int()` rejecting the empty digit string. -/
def digitsToNatNE (l : List Char) : Option Nat :=
  match l with
  | [] => none
  | _ :: _ => digitsToNat l

/-- Semantics of Python 3.5 `int(str)` on ASCII input, as applied to
interface-name suffixes: surrounding whitespace is stripped, one optional
`+` or `-` sign is allowed, then one or more decimal digits; anything else
raises `ValueError` (returned as `none`).  Non-ASCII decimal digits and
Unicode whitespace, which CPython would also accept, are outside the model. -/
def pyInt (s : String) : Option Int :=
  let l := s.toList
  let l := l.dropWhile isPySpace
  let l := (l.reverse.dropWhile isPySpace).reverse
  match l with
  | [] => none
  | c :: rest =>
    if c == '+' then (digitsToNatNE rest).map Int.ofNat
    else if c == '-' then (digitsToNatNE rest).map (fun n => -(Int.ofNat n))
    else (digitsToNatNE l).map Int.ofNat

/-- The inventory oracle: `getInterface` models `netbox.get(Netbox.Interfaces, id)`
(decoding the single-interface JSON body into the fields the code reads) and
`filterDevices` models `netbox.filter(Netbox.Devices, dict(name=...))`,
returning the `id` of each record of the `results` array.  An `error`
value models an exception raised by the transport (or by JSON decoding);
nothing inside `Netbox.get` / `Netbox.filter` catches it. -/
structure Netbox where
  getInterface : Nat → Except PyErr IfaceRecord
  filterDevices : String → Except PyErr (List Nat)

/-- The mode-dispatch block of `Port.__load_mode_and_vlans`: maps
`o['mode']['value']` to the normalized `type`, with `tagged-all` also
forcing `untagged = 1` and `tagged = "all"`, and raises `AssertionError`
on any other mode value.  A null mode leaves the port untouched. -/
def modeStep (o : IfaceRecord) (port : Port) : Except PyErr Port :=
  match o.mode with
  | none => Except.ok port
  | some m =>
    if m = "access" then Except.ok { port with type := some "access" }
    else if m = "tagged" then Except.ok { port with type := some "trunk" }
    else if m = "tagged-all" then
      Except.ok { port with type := some "trunk", untagged := some 1, tagged := some Tagged.all }
    else Except.error (PyErr.assertionError ("Unknown mode: " ++ m))

/-- The `set untagged` block of `Port.__load_mode_and_vlans`: a non-null
`untagged_vlan` reference sets `untagged` to its `vid`. -/
def untaggedUpd (o : IfaceRecord) (port : Port) : Port :=
  match o.untagged_vlan with
  | none => port
  | some v => { port with untagged := some v }

/-- The `set tagged` block of `Port.__load_mode_and_vlans`: a truthy
(non-empty) `tagged_vlans` list sets `tagged` to the list of its `vid`s. -/
def taggedUpd (o : IfaceRecord) (port : Port) : Port :=
  match o.tagged_vlans with
  | [] => port
  | _ :: _ => { port with tagged := some (Tagged.vlans o.tagged_vlans) }

/-- `Port.__load_mode_and_vlans`: the mode dispatch, then (independently)
the untagged VLAN reference overrides `untagged` and a non-empty
`tagged_vlans` list overrides `tagged`. -/
def Port.load_mode_and_vlans (port : Port) (o : IfaceRecord) : Except PyErr Port :=
  match modeStep o port with
  | Except.error e => Except.error e
  | Except.ok port1 => Except.ok (taggedUpd o (untaggedUpd o port1))

/-- The `set descr` block of `Port.load_from_netbox`: a truthy description
wins; otherwise the descr is synthesized from the connected endpoint by
kind, and an unrecognized kind raises `AssertionError`.  Reading
`o['connected_endpoint'][...]` when the endpoint is null would raise a
`TypeError` in Python; the model returns that error. -/
def descrStep (o : IfaceRecord) (port : Port) : Except PyErr Port :=
  if o.description ≠ "" then
    Except.ok { port with descr := some o.description }
  else if o.connected_endpoint_type = some "dcim.interface" then
    match o.connected_endpoint with
    | some ep => Except.ok { port with descr := some (ep.device_name ++ ":" ++ ep.name) }
    | none => Except.error (PyErr.typeError "NoneType object is not subscriptable")
  else if o.connected_endpoint_type = some "circuits.circuittermination" then
    match o.connected_endpoint with
    | some ep => Except.ok { port with descr := some ep.circuit_cid }
    | none => Except.error (PyErr.typeError "NoneType object is not subscriptable")
  else
    Except.error (PyErr.assertionError "Unknown connected_endpoint_type")

/-- Parsing of the aggregation-group number from the LAG parent name:
`int(o['lag']['name'][12:])` when the name starts with `"Port-channel"`
(12 characters), a `ValueError` when `int()` cannot parse the slice, and
the `AssertionError` of the `else` branch when the prefix is absent. -/
def lag_number_of_name (name : String) : Except PyErr Int :=
  if pyStartsWith name "Port-channel" then
    match pyInt (strDrop name 12) with
    | some n => Except.ok n
    | none => Except.error (PyErr.valueError "invalid literal for int with base 10")
  else
    Except.error
      (PyErr.assertionError "Cannot parse link-aggregation number from parent lag interface name")

/-- The `set lag` block of `Port.load_from_netbox`: when the record has a
LAG parent, parse the aggregation number, set `lag` and `lagmode`, fetch the
parent interface record and run mode/VLAN derivation on it. -/
def lagStep (nb : Netbox) (o : IfaceRecord) (port : Port) : Except PyErr Port :=
  match o.lag with
  | none => Except.ok port
  | some l =>
    match lag_number_of_name l.name with
    | Except.error e => Except.error e
    | Except.ok n =>
      match nb.getInterface l.id with
      | Except.error e => Except.error e
      | Except.ok lag_iface =>
        Port.load_mode_and_vlans { port with lag := some n, lagmode := some "active" } lag_iface

/-- The `set MTU` block: copy a truthy `mtu` through (`0` is falsy). -/
def mtuStep (o : IfaceRecord) (port : Port) : Port :=
  match o.mtu with
  | none => port
  | some m => if m = 0 then port else { port with mtu := some m }

/-- `Port.load_from_netbox`: the relevance filter (clean short-circuit),
then descr, shutdown, lag handling (which runs mode/VLAN derivation on the
parent record), mode/VLAN derivation on the record itself, and MTU. -/
def Port.load_from_netbox (nb : Netbox) (o : IfaceRecord) : Except PyErr Port :=
  if o.connected_endpoint_type = none ∧ o.type_value ≠ "lag" then
    Except.ok { clean := true }
  else
    match descrStep o { clean := false } with
    | Except.error e => Except.error e
    | Except.ok port0 =>
      match lagStep nb o { port0 with shutdown := o.enabled == false } with
      | Except.error e => Except.error e
      | Except.ok port1 =>
        match port1.load_mode_and_vlans o with
        | Except.error e => Except.error e
        | Except.ok port2 => Except.ok (mtuStep o port2)

/-- `__try_get_device`: look the name up via `netbox.filter`, return the
first result's id; the bare `except:` converts every failure — an empty
result list (`IndexError` on `[0]`) as well as any transport error —
into `None`. -/
def try_get_device (nb : Netbox) (device_name : String) : Option Nat :=
  match nb.filterDevices device_name with
  | Except.error _ => none
  | Except.ok [] => none
  | Except.ok (i :: _) => some i

/-- The lookup loop of `_get_device_id`: return the first truthy id
(`if r:` — `None` and `0` are falsy). -/
def get_device_id_go (nb : Netbox) : List String → Option Nat
  | [] => none
  | n :: rest =>
    match try_get_device nb n with
    | some r => if r ≠ 0 then some r else get_device_id_go nb rest
    | none => get_device_id_go nb rest

/-- `_get_device_id`: try the bare name, then `name.<search_domain>`;
raise `AssertionError("Device not found. Tried: " + ', '.join(names))`
when neither lookup yields a truthy id. -/
def get_device_id (nb : Netbox) (search_domain : String) (device_name : String) :
    Except PyErr Nat :=
  match get_device_id_go nb [device_name, device_name ++ "." ++ search_domain] with
  | some r => Except.ok r
  | none =>
    Except.error
      (PyErr.assertionError ("Device not found. Tried: " ++
        String.intercalate ", " [device_name, device_name ++ "." ++ search_domain]))

/-- The device-resolution slice of `main`: `_get_device_id` is wrapped in
`try ... except Exception as e: print(str(e)); sys.exit(1)`, so a
resolution failure becomes exit code 1 and a success hands the id on. -/
def main_resolve_device (nb : Netbox) (search_domain device_name : String) :
    Except Nat Nat :=
  match get_device_id nb search_domain device_name with
  | Except.ok i => Except.ok i
  | Except.error _ => Except.error 1

/-- `get_users` executes `raise NotImplemented("--users not implemented yet")`.
In Python 3 the expression `NotImplemented(...)` is evaluated first, and the
`NotImplemented` singleton is not callable, so every invocation raises
`TypeError: NotImplementedType object is not callable` — the intended
`NotImplementedError` (and its message) is never constructed. -/
def get_users : Except PyErr Unit :=
  Except.error (PyErr.typeError "NotImplementedType object is not callable")

/-! Concrete records and oracles used to instantiate the theorems below. -/

/-- An inventory oracle whose every read raises a transport error (an
unreachable inventory, or a run in which the inventory is never needed). -/
def nbFail : Netbox :=
  { getInterface := fun _ => Except.error (PyErr.transportError "connection refused")
    filterDevices := fun _ => Except.error (PyErr.transportError "connection refused") }

/-- The port `oCircuit` normalizes to. -/
def pCircuit : Port :=
  { shutdown := false, clean := false, type := none, descr := some "CID-1",
    mtu := none, lag := none, lagmode := none, untagged := none, tagged := none }

/-- A disconnected, non-LAG physical interface. -/
def oClean : IfaceRecord :=
  { name := "GigabitEthernet0/1", enabled := true, description := "", mtu := none,
    lag := none, connected_endpoint_type := none, connected_endpoint := none,
    type_value := "1000base-t", mode := none, untagged_vlan := none, tagged_vlans := [] }

/-- A LAG virtual interface with no description, no cable, null mode, no VLAN
references and no MTU — the record of the spec's own example. -/
def oLagBare : IfaceRecord :=
  { name := "Port-channel1", enabled := true, description := "", mtu := none,
    lag := none, connected_endpoint_type := none, connected_endpoint := none,
    type_value := "lag", mode := none, untagged_vlan := none, tagged_vlans := [] }

/-- A LAG parent record carrying trunk switchport settings. -/
def parentTrunk : IfaceRecord :=
  { name := "Port-channel7", enabled := true, description := "", mtu := none,
    lag := none, connected_endpoint_type := none, connected_endpoint := none,
    type_value := "lag", mode := some "tagged", untagged_vlan := some 10,
    tagged_vlans := [20, 30] }

/-- Inventory oracle serving `parentTrunk` as interface id 7. -/
def nbParent7 : Netbox :=
  { getInterface := fun i =>
      if i = 7 then Except.ok parentTrunk else Except.error (PyErr.transportError "no such id")
    filterDevices := fun _ => Except.error (PyErr.transportError "unused") }

/-- A cabled member port of Port-channel7 with its own description and no
switchport settings of its own. -/
def oMember : IfaceRecord :=
  { name := "GigabitEthernet0/2", enabled := true, description := "uplink", mtu := none,
    lag := some { name := "Port-channel7", id := 7 },
    connected_endpoint_type := some "dcim.interface",
    connected_endpoint := some { device_name := "sw2", name := "GigabitEthernet0/2",
                                 circuit_cid := "" },
    type_value := "1000base-t", mode := none, untagged_vlan := none, tagged_vlans := [] }

/-- The port `oMember` normalizes to against `nbParent7`. -/
def pMember : Port :=
  { shutdown := false, clean := false, type := some "trunk", descr := some "uplink",
    mtu := none, lag := some 7, lagmode := some "active", untagged := some 10,
    tagged := some (Tagged.vlans [20, 30]) }

/-- A LAG parent record with no switchport settings at all. -/
def parentPlain : IfaceRecord :=
  { name := "Port-channel 3", enabled := true, description := "", mtu := none,
    lag := none, connected_endpoint_type := none, connected_endpoint := none,
    type_value := "lag", mode := none, untagged_vlan := none, tagged_vlans := [] }

/-- Inventory oracle serving `parentPlain` as interface id 9. -/
def nbParent9 : Netbox :=
  { getInterface := fun i =>
      if i = 9 then Except.ok parentPlain else Except.error (PyErr.transportError "no such id")
    filterDevices := fun _ => Except.error (PyErr.transportError "unused") }

/-- A member port whose LAG parent is named `"Port-channel 3"` — a name that
is not of the form `Port-channel<N>` (a space separates the prefix from the
digits), yet Python's `int(" 3")` parses its suffix. -/
def oSpacedLag : IfaceRecord :=
  { name := "GigabitEthernet0/3", enabled := true, description := "uplink", mtu := none,
    lag := some { name := "Port-channel 3", id := 9 },
    connected_endpoint_type := some "dcim.interface",
    connected_endpoint := some { device_name := "sw2", name := "GigabitEthernet0/3",
                                 circuit_cid := "" },
    type_value := "1000base-t", mode := none, untagged_vlan := none, tagged_vlans := [] }

/-- The port `oSpacedLag` normalizes to against `nbParent9` — a success,
with the aggregation number 3 extracted from the malformed name. -/
def pSpacedLag : Port :=
  { shutdown := false, clean := false, type := none, descr := some "uplink",
    mtu := none, lag := some 3, lagmode := some "active", untagged := none,
    tagged := none }

/-- A connected interface in `tagged-all` mode with no VLAN references. -/
def oTaggedAll : IfaceRecord :=
  { name := "GigabitEthernet0/4", enabled := true, description := "core", mtu := none,
    lag := none, connected_endpoint_type := some "dcim.interface",
    connected_endpoint := none, type_value := "1000base-t", mode := some "tagged-all",
    untagged_vlan := none, tagged_vlans := [] }

/-- A disabled connected access interface with an untagged VLAN and an MTU. -/
def oAccessDown : IfaceRecord :=
  { name := "GigabitEthernet0/5", enabled := false, description := "server", mtu := some 9000,
    lag := none, connected_endpoint_type := some "dcim.interface", connected_endpoint := none,
    type_value := "1000base-t", mode := some "access", untagged_vlan := some 42,
    tagged_vlans := [] }

/-- The port `oAccessDown` normalizes to. -/
def pAccessDown : Port :=
  { shutdown := true, clean := false, type := some "access", descr := some "server",
    mtu := some 9000, lag := none, lagmode := none, untagged := some 42, tagged := none }

/-- A descriptionless interface connected to a circuit termination. -/
def oCircuit : IfaceRecord :=
  { name := "GigabitEthernet0/6", enabled := true, description := "", mtu := none,
    lag := none, connected_endpoint_type := some "circuits.circuittermination",
    connected_endpoint := some { device_name := "", name := "", circuit_cid := "CID-1" },
    type_value := "1000base-t", mode := none, untagged_vlan := none, tagged_vlans := [] }

/-- An oracle in which the bare name `"sw1"` is unknown but the
domain-suffixed name resolves to device id 5. -/
def nbDomainOnly : Netbox :=
  { getInterface := fun _ => Except.error (PyErr.transportError "unused")
    filterDevices := fun n => if n = "sw1.example.net" then Except.ok [5] else Except.ok [] }

/-! Helper lemmas about the individual normalization blocks. -/

/-- `untaggedUpd` touches only the `untagged` attribute. -/
theorem untaggedUpd_fields (o : IfaceRecord) (p : Port) :
    (untaggedUpd o p).clean = p.clean ∧ (untaggedUpd o p).shutdown = p.shutdown ∧
    (untaggedUpd o p).descr = p.descr ∧ (untaggedUpd o p).mtu = p.mtu ∧
    (untaggedUpd o p).lag = p.lag ∧ (untaggedUpd o p).lagmode = p.lagmode ∧
    (untaggedUpd o p).type = p.type ∧ (untaggedUpd o p).tagged = p.tagged := by
  unfold untaggedUpd
  rcases o.untagged_vlan with _ | v <;> exact ⟨rfl, rfl, rfl, rfl, rfl, rfl, rfl, rfl⟩

/-- `taggedUpd` touches only the `tagged` attribute. -/
theorem taggedUpd_fields (o : IfaceRecord) (p : Port) :
    (taggedUpd o p).clean = p.clean ∧ (taggedUpd o p).shutdown = p.shutdown ∧
    (taggedUpd o p).descr = p.descr ∧ (taggedUpd o p).mtu = p.mtu ∧
    (taggedUpd o p).lag = p.lag ∧ (taggedUpd o p).lagmode = p.lagmode ∧
    (taggedUpd o p).type = p.type ∧ (taggedUpd o p).untagged = p.untagged := by
  unfold taggedUpd
  rcases o.tagged_vlans with _ | ⟨v, l⟩ <;> exact ⟨rfl, rfl, rfl, rfl, rfl, rfl, rfl, rfl⟩

/-- `untaggedUpd` preserves `type`. -/
theorem untaggedUpd_type (o : IfaceRecord) (p : Port) :
    (untaggedUpd o p).type = p.type :=
  (untaggedUpd_fields o p).2.2.2.2.2.2.1

/-- `untaggedUpd` preserves `tagged`. -/
theorem untaggedUpd_tagged (o : IfaceRecord) (p : Port) :
    (untaggedUpd o p).tagged = p.tagged :=
  (untaggedUpd_fields o p).2.2.2.2.2.2.2

/-- `taggedUpd` preserves `type`. -/
theorem taggedUpd_type (o : IfaceRecord) (p : Port) :
    (taggedUpd o p).type = p.type :=
  (taggedUpd_fields o p).2.2.2.2.2.2.1

/-- `taggedUpd` preserves `untagged`. -/
theorem taggedUpd_untagged (o : IfaceRecord) (p : Port) :
    (taggedUpd o p).untagged = p.untagged :=
  (taggedUpd_fields o p).2.2.2.2.2.2.2

/-- With a null untagged VLAN reference, `untaggedUpd` is the identity. -/
theorem untaggedUpd_of_none (o : IfaceRecord) (p : Port)
    (hu : o.untagged_vlan = none) : untaggedUpd o p = p := by
  unfold untaggedUpd; rw [hu]

/-- With an untagged VLAN reference, `untaggedUpd` sets `untagged` to its vid. -/
theorem untaggedUpd_of_some (o : IfaceRecord) (p : Port) (v : Nat)
    (hu : o.untagged_vlan = some v) :
    untaggedUpd o p = { p with untagged := some v } := by
  unfold untaggedUpd; rw [hu]

/-- With no tagged VLAN references, `taggedUpd` is the identity. -/
theorem taggedUpd_of_nil (o : IfaceRecord) (p : Port)
    (ht : o.tagged_vlans = []) : taggedUpd o p = p := by
  unfold taggedUpd; rw [ht]

/-- `mtuStep` touches only the `mtu` attribute. -/
theorem mtuStep_fields (o : IfaceRecord) (p : Port) :
    (mtuStep o p).clean = p.clean ∧ (mtuStep o p).shutdown = p.shutdown ∧
    (mtuStep o p).descr = p.descr ∧ (mtuStep o p).lag = p.lag ∧
    (mtuStep o p).lagmode = p.lagmode ∧ (mtuStep o p).type = p.type ∧
    (mtuStep o p).untagged = p.untagged ∧ (mtuStep o p).tagged = p.tagged := by
  unfold mtuStep
  rcases o.mtu with _ | m
  · exact ⟨rfl, rfl, rfl, rfl, rfl, rfl, rfl, rfl⟩
  · dsimp only
    by_cases hm : m = 0
    · rw [if_pos hm]; exact ⟨rfl, rfl, rfl, rfl, rfl, rfl, rfl, rfl⟩
    · rw [if_neg hm]; exact ⟨rfl, rfl, rfl, rfl, rfl, rfl, rfl, rfl⟩

/-- A successful `modeStep` changes none of the attributes outside
`type`, `untagged`, `tagged`. -/
theorem modeStep_ok_fields {o : IfaceRecord} {p q : Port}
    (h : modeStep o p = Except.ok q) :
    q.clean = p.clean ∧ q.shutdown = p.shutdown ∧ q.descr = p.descr ∧
    q.mtu = p.mtu ∧ q.lag = p.lag ∧ q.lagmode = p.lagmode := by
  unfold modeStep at h
  rcases hm : o.mode with _ | m <;> rw [hm] at h
  · injection h with h; subst h; exact ⟨rfl, rfl, rfl, rfl, rfl, rfl⟩
  · dsimp only at h
    by_cases h1 : m = "access"
    · rw [if_pos h1] at h; injection h with h; subst h; exact ⟨rfl, rfl, rfl, rfl, rfl, rfl⟩
    · rw [if_neg h1] at h
      by_cases h2 : m = "tagged"
      · rw [if_pos h2] at h; injection h with h; subst h; exact ⟨rfl, rfl, rfl, rfl, rfl, rfl⟩
      · rw [if_neg h2] at h
        by_cases h3 : m = "tagged-all"
        · rw [if_pos h3] at h; injection h with h; subst h
          exact ⟨rfl, rfl, rfl, rfl, rfl, rfl⟩
        · rw [if_neg h3] at h; exact Except.noConfusion h

/-- A successful `Port.__load_mode_and_vlans` changes none of the attributes
outside `type`, `untagged`, `tagged`. -/
theorem lmv_ok_fields {o : IfaceRecord} {p q : Port}
    (h : Port.load_mode_and_vlans p o = Except.ok q) :
    q.clean = p.clean ∧ q.shutdown = p.shutdown ∧ q.descr = p.descr ∧
    q.mtu = p.mtu ∧ q.lag = p.lag ∧ q.lagmode = p.lagmode := by
  unfold Port.load_mode_and_vlans at h
  cases hm : modeStep o p with
  | error e => rw [hm] at h; exact Except.noConfusion h
  | ok p1 =>
    rw [hm] at h
    injection h with h
    subst h
    obtain ⟨f1, f2, f3, f4, f5, f6⟩ := modeStep_ok_fields hm
    obtain ⟨u1, u2, u3, u4, u5, u6, _, _⟩ := untaggedUpd_fields o p1
    obtain ⟨t1, t2, t3, t4, t5, t6, _, _⟩ := taggedUpd_fields o (untaggedUpd o p1)
    exact ⟨t1.trans (u1.trans f1), t2.trans (u2.trans f2), t3.trans (u3.trans f3),
           t4.trans (u4.trans f4), t5.trans (u5.trans f5), t6.trans (u6.trans f6)⟩

/-- An explicit untagged VLAN reference always determines the final
`untagged` value of a successful `Port.__load_mode_and_vlans`. -/
theorem lmv_untagged_of_some {o : IfaceRecord} {p q : Port} {v : Nat}
    (hu : o.untagged_vlan = some v) (h : Port.load_mode_and_vlans p o = Except.ok q) :
    q.untagged = some v := by
  unfold Port.load_mode_and_vlans at h
  cases hm : modeStep o p with
  | error e => rw [hm] at h; exact Except.noConfusion h
  | ok p1 =>
    rw [hm] at h
    injection h with h
    subst h
    obtain ⟨_, _, _, _, _, _, _, tu⟩ := taggedUpd_fields o (untaggedUpd o p1)
    rw [tu]
    unfold untaggedUpd
    rw [hu]

/-- Non-empty tagged VLAN references always determine the final `tagged`
value of a successful `Port.__load_mode_and_vlans`. -/
theorem lmv_tagged_of_ne {o : IfaceRecord} {p q : Port}
    (ht : o.tagged_vlans ≠ []) (h : Port.load_mode_and_vlans p o = Except.ok q) :
    q.tagged = some (Tagged.vlans o.tagged_vlans) := by
  unfold Port.load_mode_and_vlans at h
  cases hm : modeStep o p with
  | error e => rw [hm] at h; exact Except.noConfusion h
  | ok p1 =>
    rw [hm] at h
    injection h with h
    subst h
    unfold taggedUpd
    rcases hl : o.tagged_vlans with _ | ⟨x, xs⟩
    · exact absurd hl ht
    · rfl

/-- With a null mode and no VLAN references, `Port.__load_mode_and_vlans`
returns its input port unchanged. -/
theorem lmv_noop {o : IfaceRecord} (p : Port)
    (hm : o.mode = none) (hu : o.untagged_vlan = none) (ht : o.tagged_vlans = []) :
    Port.load_mode_and_vlans p o = Except.ok p := by
  unfold Port.load_mode_and_vlans modeStep untaggedUpd taggedUpd
  rw [hm, hu, ht]

/-- Mode `access` yields type `access` on a successful
`Port.__load_mode_and_vlans`. -/
theorem lmv_type_of_access {o : IfaceRecord} {p q : Port}
    (hm : o.mode = some "access") (h : Port.load_mode_and_vlans p o = Except.ok q) :
    q.type = some "access" := by
  unfold Port.load_mode_and_vlans at h
  cases hms : modeStep o p with
  | error e => rw [hms] at h; exact Except.noConfusion h
  | ok p1 =>
    rw [hms] at h
    injection h with h
    subst h
    obtain ⟨_, _, _, _, _, _, tt, _⟩ := taggedUpd_fields o (untaggedUpd o p1)
    obtain ⟨_, _, _, _, _, _, ut, _⟩ := untaggedUpd_fields o p1
    rw [tt, ut]
    unfold modeStep at hms
    rw [hm] at hms
    dsimp only at hms
    rw [if_pos rfl] at hms
    injection hms with hms
    subst hms
    rfl

/-- Mode `tagged` yields type `trunk` on a successful
`Port.__load_mode_and_vlans`. -/
theorem lmv_type_of_tagged {o : IfaceRecord} {p q : Port}
    (hm : o.mode = some "tagged") (h : Port.load_mode_and_vlans p o = Except.ok q) :
    q.type = some "trunk" := by
  unfold Port.load_mode_and_vlans at h
  cases hms : modeStep o p with
  | error e => rw [hms] at h; exact Except.noConfusion h
  | ok p1 =>
    rw [hms] at h
    injection h with h
    subst h
    obtain ⟨_, _, _, _, _, _, tt, _⟩ := taggedUpd_fields o (untaggedUpd o p1)
    obtain ⟨_, _, _, _, _, _, ut, _⟩ := untaggedUpd_fields o p1
    rw [tt, ut]
    unfold modeStep at hms
    rw [hm] at hms
    dsimp only at hms
    rw [if_neg (by decide), if_pos rfl] at hms
    injection hms with hms
    subst hms
    rfl

/-- A truthy description short-circuits `descrStep`: the descr is the
description itself and nothing else of the record is consulted. -/
theorem descrStep_of_desc (o : IfaceRecord) (p : Port) (hd : o.description ≠ "") :
    descrStep o p = Except.ok { p with descr := some o.description } := by
  unfold descrStep
  rw [if_pos hd]

/-- A successful `descrStep` changes only the `descr` attribute. -/
theorem descrStep_ok_fields {o : IfaceRecord} {p q : Port}
    (h : descrStep o p = Except.ok q) :
    q.clean = p.clean ∧ q.shutdown = p.shutdown ∧ q.type = p.type ∧
    q.mtu = p.mtu ∧ q.lag = p.lag ∧ q.lagmode = p.lagmode ∧
    q.untagged = p.untagged ∧ q.tagged = p.tagged := by
  unfold descrStep at h
  by_cases hd : o.description ≠ ""
  · rw [if_pos hd] at h
    injection h with h; subst h
    exact ⟨rfl, rfl, rfl, rfl, rfl, rfl, rfl, rfl⟩
  · rw [if_neg hd] at h
    by_cases h1 : o.connected_endpoint_type = some "dcim.interface"
    · rw [if_pos h1] at h
      cases hep : o.connected_endpoint with
      | none => rw [hep] at h; exact Except.noConfusion h
      | some ep =>
        rw [hep] at h
        injection h with h; subst h
        exact ⟨rfl, rfl, rfl, rfl, rfl, rfl, rfl, rfl⟩
    · rw [if_neg h1] at h
      by_cases h2 : o.connected_endpoint_type = some "circuits.circuittermination"
      · rw [if_pos h2] at h
        cases hep : o.connected_endpoint with
        | none => rw [hep] at h; exact Except.noConfusion h
        | some ep =>
          rw [hep] at h
          injection h with h; subst h
          exact ⟨rfl, rfl, rfl, rfl, rfl, rfl, rfl, rfl⟩
      · rw [if_neg h2] at h; exact Except.noConfusion h

/-- `lagStep` is the identity on records without a LAG parent. -/
theorem lagStep_of_none {nb : Netbox} {o : IfaceRecord} (p : Port) (hl : o.lag = none) :
    lagStep nb o p = Except.ok p := by
  unfold lagStep
  rw [hl]

/-- Inversion of a successful `lagStep` on a record with a LAG parent:
the parent name was parsed, the parent record was fetched, and mode/VLAN
derivation ran on the parent record over the port with `lag`/`lagmode` set. -/
theorem lagStep_some_inv {nb : Netbox} {o : IfaceRecord} {p q : Port} {l : LagRef}
    (hl : o.lag = some l) (h : lagStep nb o p = Except.ok q) :
    ∃ n iface, lag_number_of_name l.name = Except.ok n ∧
      nb.getInterface l.id = Except.ok iface ∧
      Port.load_mode_and_vlans { p with lag := some n, lagmode := some "active" } iface
        = Except.ok q := by
  unfold lagStep at h
  rw [hl] at h
  dsimp only at h
  cases hn : lag_number_of_name l.name with
  | error e => rw [hn] at h; exact Except.noConfusion h
  | ok n =>
    rw [hn] at h
    dsimp only at h
    cases hi : nb.getInterface l.id with
    | error e => rw [hi] at h; exact Except.noConfusion h
    | ok iface =>
      rw [hi] at h
      exact ⟨n, iface, rfl, rfl, h⟩

/-- A successful `lagStep` changes none of `clean`, `shutdown`, `descr`,
`mtu`, and on a record with a LAG parent it sets `lag` and `lagmode`. -/
theorem lagStep_ok_fields {nb : Netbox} {o : IfaceRecord} {p q : Port}
    (h : lagStep nb o p = Except.ok q) :
    q.clean = p.clean ∧ q.shutdown = p.shutdown ∧ q.descr = p.descr ∧ q.mtu = p.mtu := by
  cases hl : o.lag with
  | none =>
    rw [lagStep_of_none p hl] at h
    injection h with h; subst h
    exact ⟨rfl, rfl, rfl, rfl⟩
  | some l =>
    obtain ⟨n, iface, _, _, hlmv⟩ := lagStep_some_inv hl h
    obtain ⟨f1, f2, f3, f4, _, _⟩ := lmv_ok_fields hlmv
    exact ⟨f1, f2, f3, f4⟩

/-- An error raised while fetching the LAG parent record propagates out of
`lagStep` unchanged. -/
theorem lagStep_err {nb : Netbox} {o : IfaceRecord} {l : LagRef} {n : Int} {e : PyErr}
    (p : Port) (hl : o.lag = some l) (hn : lag_number_of_name l.name = Except.ok n)
    (hi : nb.getInterface l.id = Except.error e) :
    lagStep nb o p = Except.error e := by
  unfold lagStep
  rw [hl]
  dsimp only
  rw [hn]
  dsimp only
  rw [hi]

/-- Inversion of a successful, non-clean `Port.load_from_netbox`: the four
pipeline stages ran in order — descr, shutdown, lag handling, mode/VLAN
derivation on the record itself, MTU. -/
theorem load_ok_inv {nb : Netbox} {o : IfaceRecord} {p : Port}
    (h : Port.load_from_netbox nb o = Except.ok p) (hc : p.clean = false) :
    ∃ p0 p1 p2,
      descrStep o { clean := false } = Except.ok p0 ∧
      lagStep nb o { p0 with shutdown := o.enabled == false } = Except.ok p1 ∧
      Port.load_mode_and_vlans p1 o = Except.ok p2 ∧
      p = mtuStep o p2 := by
  unfold Port.load_from_netbox at h
  split at h
  · injection h with h
    rw [← h] at hc
    simp at hc
  · cases hd : descrStep o { clean := false } with
    | error e => rw [hd] at h; exact Except.noConfusion h
    | ok p0 =>
      rw [hd] at h
      dsimp only at h
      cases hl : lagStep nb o { p0 with shutdown := o.enabled == false } with
      | error e => rw [hl] at h; exact Except.noConfusion h
      | ok p1 =>
        rw [hl] at h
        dsimp only at h
        cases hm : Port.load_mode_and_vlans p1 o with
        | error e => rw [hm] at h; exact Except.noConfusion h
        | ok p2 =>
          rw [hm] at h
          injection h with h
          exact ⟨p0, p1, p2, rfl, hl, hm, h.symm⟩

/-- When neither the bare nor the suffixed name yields a truthy id,
`_get_device_id` raises the device-not-found assertion and the `main`
wrapper turns it into exit code 1. -/
theorem get_device_id_not_found (nb : Netbox) (domain name : String)
    (hf1 : try_get_device nb name = none ∨ try_get_device nb name = some 0)
    (hf2 : try_get_device nb (name ++ "." ++ domain) = none ∨
      try_get_device nb (name ++ "." ++ domain) = some 0) :
    get_device_id nb domain name = Except.error (PyErr.assertionError
      ("Device not found. Tried: " ++
        String.intercalate ", " [name, name ++ "." ++ domain])) ∧
    main_resolve_device nb domain name = Except.error 1 := by
  have hggo : get_device_id_go nb [name, name ++ "." ++ domain] = none := by
    simp only [get_device_id_go]
    rcases hf1 with hf | hf <;> rcases hf2 with hg | hg <;> rw [hf, hg] <;> dsimp only <;>
        (repeat rw [if_neg (fun hh => hh rfl)]) <;> try rfl
  have hg : get_device_id nb domain name = Except.error (PyErr.assertionError
      ("Device not found. Tried: " ++
        String.intercalate ", " [name, name ++ "." ++ domain])) := by
    unfold get_device_id
    rw [hggo]
  exact ⟨hg, by unfold main_resolve_device; rw [hg]⟩

/-! The claims. -/

/-- C1: a raw interface record with a null connected-endpoint type and a
declared type other than `"lag"` normalizes (via `Port.load_from_netbox`
followed by `Port.to_dict`) to exactly the one-field document `clean: true`;
and for every port whose `clean` flag is true, `Port.to_dict` emits no field
besides `clean` (`shutdown`, `type`, `descr`, `mtu`, `lag`, `lagmode`,
`untagged`, `tagged` are all absent). -/
theorem c1_clean_only_document :
    (∀ (nb : Netbox) (o : IfaceRecord),
        o.connected_endpoint_type = none → o.type_value ≠ "lag" →
        ∃ p, Port.load_from_netbox nb o = Except.ok p ∧
          p.to_dict = { clean := some true }) ∧
    (∀ p : Port, p.clean = true → p.to_dict = { clean := some true }) := by
  constructor
  · intro nb o h1 h2
    refine ⟨{ clean := true }, ?_, rfl⟩
    unfold Port.load_from_netbox
    rw [if_pos ⟨h1, h2⟩]
  · intro p hp
    unfold Port.to_dict
    rw [if_pos hp]

/-- C1 witness: the concrete disconnected non-LAG record `oClean`
normalizes to the one-field clean document. -/
theorem c1_clean_only_document_witness :
    ∃ p, Port.load_from_netbox nbFail oClean = Except.ok p ∧
      p.to_dict = { clean := some true } :=
  c1_clean_only_document.1 nbFail oClean rfl (by decide)

/-- C2 counterexample: the spec's example record — declared type `"lag"`,
null mode, null connected-endpoint type, empty description —
does not normalize successfully: `Port.load_from_netbox` falls through the
description priority chain into the endpoint-kind dispatch and raises the
unknown-endpoint-kind assertion, so no shutdown-only document is produced. -/
theorem c2_lag_bare_counterexample :
    Port.load_from_netbox nbFail oLagBare
      = Except.error (PyErr.assertionError "Unknown connected_endpoint_type") := rfl

/-- C2 amended: for every interface record with null mode, null
connected-endpoint type, declared type `"lag"`, empty description, no LAG
parent, no VLAN references and no MTU, `Port.load_from_netbox` does not take
the clean path but fails with the unknown-endpoint-kind assertion error
(the empty description falls through to the endpoint-kind dispatch, where
the null endpoint type is unrecognized); no port is produced. -/
theorem c2_lag_bare_raises (nb : Netbox) (o : IfaceRecord)
    (hm : o.mode = none) (hep : o.connected_endpoint = none)
    (hc : o.connected_endpoint_type = none)
    (ht : o.type_value = "lag") (hd : o.description = "")
    (hl : o.lag = none) (hu : o.untagged_vlan = none)
    (htv : o.tagged_vlans = []) (hmtu : o.mtu = none) :
    Port.load_from_netbox nb o
      = Except.error (PyErr.assertionError "Unknown connected_endpoint_type") := by
  unfold Port.load_from_netbox
  rw [if_neg (fun hand => hand.2 ht)]
  have hds : descrStep o { clean := false }
      = Except.error (PyErr.assertionError "Unknown connected_endpoint_type") := by
    unfold descrStep
    rw [if_neg (fun hh => hh hd), hc]
    rw [if_neg (by simp), if_neg (by simp)]
  rw [hds]

/-- C2 witness for the amended claim, at the concrete record `oLagBare`. -/
theorem c2_lag_bare_raises_witness :
    Port.load_from_netbox nbFail oLagBare
      = Except.error (PyErr.assertionError "Unknown connected_endpoint_type") :=
  c2_lag_bare_raises nbFail oLagBare rfl rfl rfl rfl rfl rfl rfl rfl rfl

/-- C7: for every record that `Port.load_from_netbox` normalizes to a
non-clean port, the port's `shutdown` flag is the negation of the record's
`enabled` flag, whichever of its two values `enabled` takes. -/
theorem c7_shutdown_negates_enabled (nb : Netbox) (o : IfaceRecord) (p : Port)
    (h : Port.load_from_netbox nb o = Except.ok p) (hc : p.clean = false) :
    p.shutdown = !o.enabled := by
  obtain ⟨p0, p1, p2, _, hl, hm, hp⟩ := load_ok_inv h hc
  obtain ⟨_, s2, _, _⟩ := lagStep_ok_fields hl
  obtain ⟨_, s3, _, _, _, _⟩ := lmv_ok_fields hm
  have hms : p.shutdown = p2.shutdown := by
    rw [hp]; exact (mtuStep_fields o p2).2.1
  rw [hms, s3, s2]
  cases o.enabled <;> rfl

/-- C7 witness: the concrete disabled access interface `oAccessDown`
normalizes with `shutdown = true = not enabled`. -/
theorem c7_shutdown_negates_enabled_witness :
    pAccessDown.shutdown = !oAccessDown.enabled :=
  c7_shutdown_negates_enabled nbFail oAccessDown pAccessDown rfl rfl

/-- C9: every invocation of the user export `get_users` fails — but with a
`TypeError` (`NotImplementedType` is not callable), not with a
not-implemented error: `raise NotImplemented("--users not implemented yet")`
calls the non-callable `NotImplemented` singleton. -/
theorem c9_get_users_raises_type_error :
    get_users = Except.error (PyErr.typeError "NotImplementedType object is not callable") :=
  rfl

/-- C4: mode mapping of `Port.__load_mode_and_vlans`: `access` maps to type
`access`; `tagged` to type `trunk`; `tagged-all` to type `trunk` with
`untagged` set to VLAN id 1 and `tagged` set to the literal `all` (each
unless overridden by the record's own VLAN references, an explicit untagged
reference overriding the `untagged` value set by the `tagged-all` branch);
any other mode fails with the unrecognized-mode assertion error. -/
theorem c4_mode_mapping (p : Port) (o : IfaceRecord) :
    (o.mode = some "access" →
       ∃ q, Port.load_mode_and_vlans p o = Except.ok q ∧ q.type = some "access") ∧
    (o.mode = some "tagged" →
       ∃ q, Port.load_mode_and_vlans p o = Except.ok q ∧ q.type = some "trunk") ∧
    (o.mode = some "tagged-all" →
       ∃ q, Port.load_mode_and_vlans p o = Except.ok q ∧ q.type = some "trunk" ∧
         (o.untagged_vlan = none → q.untagged = some 1) ∧
         (∀ v, o.untagged_vlan = some v → q.untagged = some v) ∧
         (o.tagged_vlans = [] → q.tagged = some Tagged.all)) ∧
    (∀ m, o.mode = some m → m ≠ "access" → m ≠ "tagged" → m ≠ "tagged-all" →
       Port.load_mode_and_vlans p o
         = Except.error (PyErr.assertionError ("Unknown mode: " ++ m))) := by
  refine ⟨fun hm => ?_, fun hm => ?_, fun hm => ?_, fun m hm h1 h2 h3 => ?_⟩
  · have hms : modeStep o p = Except.ok { p with type := some "access" } := by
      unfold modeStep; rw [hm]; dsimp only; rw [if_pos rfl]
    refine ⟨_, by unfold Port.load_mode_and_vlans; rw [hms], ?_⟩
    rw [taggedUpd_type, untaggedUpd_type]
  · have hms : modeStep o p = Except.ok { p with type := some "trunk" } := by
      unfold modeStep; rw [hm]; dsimp only; rw [if_neg (by decide), if_pos rfl]
    refine ⟨_, by unfold Port.load_mode_and_vlans; rw [hms], ?_⟩
    rw [taggedUpd_type, untaggedUpd_type]
  · have hms : modeStep o p
        = Except.ok { p with type := some "trunk", untagged := some 1,
                             tagged := some Tagged.all } := by
      unfold modeStep; rw [hm]; dsimp only
      rw [if_neg (by decide), if_neg (by decide), if_pos rfl]
    refine ⟨_, by unfold Port.load_mode_and_vlans; rw [hms], ?_, ?_, ?_, ?_⟩
    · rw [taggedUpd_type, untaggedUpd_type]
    · intro hu
      rw [taggedUpd_untagged, untaggedUpd_of_none o _ hu]
    · intro v hu
      rw [taggedUpd_untagged, untaggedUpd_of_some o _ v hu]
    · intro htv
      rw [taggedUpd_of_nil o _ htv, untaggedUpd_tagged]
  · have hms : modeStep o p = Except.error (PyErr.assertionError ("Unknown mode: " ++ m)) := by
      unfold modeStep; rw [hm]; dsimp only
      rw [if_neg h1, if_neg h2, if_neg h3]
    unfold Port.load_mode_and_vlans; rw [hms]

/-- C4 witness: in `tagged-all` mode with no VLAN references of its own,
the derived port has type `trunk`, `untagged` 1 and `tagged` `all`. -/
theorem c4_mode_mapping_witness :
    ∃ q, Port.load_mode_and_vlans {} oTaggedAll = Except.ok q ∧
      q.type = some "trunk" ∧ q.untagged = some 1 ∧ q.tagged = some Tagged.all := by
  obtain ⟨q, hq, h1, h2, _, h3⟩ := (c4_mode_mapping {} oTaggedAll).2.2.1 rfl
  exact ⟨q, hq, h1, h2 rfl, h3 rfl⟩

/-- C8: description derivation of non-clean records: a non-empty description
wins, and the derivation is then independent of the connected endpoint; with
an empty description, a `dcim.interface` endpoint synthesizes
`remote-device:remote-interface`, a circuit termination synthesizes the
circuit id, and any other endpoint kind fails with the
unrecognized-endpoint-kind assertion error. -/
theorem c8_descr_derivation :
    (∀ (nb : Netbox) (o : IfaceRecord) (p : Port),
        Port.load_from_netbox nb o = Except.ok p → p.clean = false →
        o.description ≠ "" → p.descr = some o.description) ∧
    (∀ (nb : Netbox) (o : IfaceRecord) (ep : Option Endpoint),
        o.description ≠ "" →
        Port.load_from_netbox nb { o with connected_endpoint := ep }
          = Port.load_from_netbox nb o) ∧
    (∀ (nb : Netbox) (o : IfaceRecord) (p : Port) (ep : Endpoint),
        Port.load_from_netbox nb o = Except.ok p → p.clean = false →
        o.description = "" → o.connected_endpoint_type = some "dcim.interface" →
        o.connected_endpoint = some ep →
        p.descr = some (ep.device_name ++ ":" ++ ep.name)) ∧
    (∀ (nb : Netbox) (o : IfaceRecord) (p : Port) (ep : Endpoint),
        Port.load_from_netbox nb o = Except.ok p → p.clean = false →
        o.description = "" →
        o.connected_endpoint_type = some "circuits.circuittermination" →
        o.connected_endpoint = some ep →
        p.descr = some ep.circuit_cid) ∧
    (∀ (nb : Netbox) (o : IfaceRecord) (k : String),
        o.description = "" → o.connected_endpoint_type = some k →
        k ≠ "dcim.interface" → k ≠ "circuits.circuittermination" →
        Port.load_from_netbox nb o
          = Except.error (PyErr.assertionError "Unknown connected_endpoint_type")) := by
  have chain : ∀ (nb : Netbox) (o : IfaceRecord) (p p0 : Port),
      Port.load_from_netbox nb o = Except.ok p → p.clean = false →
      descrStep o { clean := false } = Except.ok p0 → p.descr = p0.descr := by
    intro nb o p p0 h hc hd0
    obtain ⟨q0, q1, q2, hd, hl, hm, hp⟩ := load_ok_inv h hc
    rw [hd0] at hd
    injection hd with hd
    subst hd
    obtain ⟨_, _, d2, _⟩ := lagStep_ok_fields hl
    obtain ⟨_, _, d3, _, _, _⟩ := lmv_ok_fields hm
    have d4 : p.descr = q2.descr := by rw [hp]; exact (mtuStep_fields o q2).2.2.1
    rw [d4, d3, d2]
  refine ⟨?_, ?_, ?_, ?_, ?_⟩
  · intro nb o p h hc hd
    rw [chain nb o p _ h hc (descrStep_of_desc o _ hd)]
  · intro nb o ep hd
    obtain ⟨n, en, d, mtu, lg, cet, ce, tv, md, uv, tvs⟩ := o
    unfold Port.load_from_netbox
    dsimp only
    rw [descrStep_of_desc ⟨n, en, d, mtu, lg, cet, ep, tv, md, uv, tvs⟩ _ hd,
        descrStep_of_desc ⟨n, en, d, mtu, lg, cet, ce, tv, md, uv, tvs⟩ _ hd]
    rfl
  · intro nb o p ep h hc hd hcet hep
    have hd0 : descrStep o { clean := false }
        = Except.ok { clean := false,
                      descr := some (ep.device_name ++ ":" ++ ep.name) } := by
      unfold descrStep
      rw [if_neg (fun hh => hh hd), if_pos hcet, hep]
    rw [chain nb o p _ h hc hd0]
  · intro nb o p ep h hc hd hcet hep
    have hd0 : descrStep o { clean := false }
        = Except.ok { clean := false, descr := some ep.circuit_cid } := by
      unfold descrStep
      rw [if_neg (fun hh => hh hd), if_pos hcet]
      rw [if_neg (by rw [hcet]; simp), hep]
    rw [chain nb o p _ h hc hd0]
  · intro nb o k hd hcet h1 h2
    unfold Port.load_from_netbox
    rw [if_neg (fun hand => by rw [hcet] at hand; exact Option.noConfusion hand.1)]
    have hds : descrStep o { clean := false }
        = Except.error (PyErr.assertionError "Unknown connected_endpoint_type") := by
      unfold descrStep
      rw [if_neg (fun hh => hh hd), hcet]
      rw [if_neg (by simp [h1]), if_neg (by simp [h2])]
    rw [hds]

/-- C8 witness: the descriptionless circuit-terminated record `oCircuit`
derives its descr from the circuit id. -/
theorem c8_descr_derivation_witness : pCircuit.descr = some "CID-1" :=
  c8_descr_derivation.2.2.2.1 nbFail oCircuit pCircuit
    { device_name := "", name := "", circuit_cid := "CID-1" } rfl rfl rfl rfl rfl

/-- C3: for every record normalized to a non-clean port that declares a LAG
parent, mode/VLAN derivation runs first on the parent record fetched from
the inventory and then on the record itself (the final mode/VLAN fields are
those of that two-stage application); VLAN references supplied by the
record itself win (the later call); and absent interface-level overrides,
the mode/VLAN fields mirror the parent's switchport configuration. -/
theorem c3_lag_parent_order (nb : Netbox) (o : IfaceRecord) (p : Port) (l : LagRef)
    (parent : IfaceRecord)
    (h : Port.load_from_netbox nb o = Except.ok p) (hc : p.clean = false)
    (hl : o.lag = some l) (hpar : nb.getInterface l.id = Except.ok parent) :
    (∃ start mid fin,
        Port.load_mode_and_vlans start parent = Except.ok mid ∧
        Port.load_mode_and_vlans mid o = Except.ok fin ∧
        p.type = fin.type ∧ p.untagged = fin.untagged ∧ p.tagged = fin.tagged) ∧
    (∀ v, o.untagged_vlan = some v → p.untagged = some v) ∧
    (o.tagged_vlans ≠ [] → p.tagged = some (Tagged.vlans o.tagged_vlans)) ∧
    (o.mode = none → o.untagged_vlan = none → o.tagged_vlans = [] →
       (parent.mode = some "access" → p.type = some "access") ∧
       (parent.mode = some "tagged" → p.type = some "trunk") ∧
       (∀ v, parent.untagged_vlan = some v → p.untagged = some v) ∧
       (parent.tagged_vlans ≠ [] →
          p.tagged = some (Tagged.vlans parent.tagged_vlans))) := by
  obtain ⟨p0, p1, p2, hd, hlag, hm, hp⟩ := load_ok_inv h hc
  obtain ⟨n, iface, hn, hi, hlmv⟩ := lagStep_some_inv hl hlag
  rw [hpar] at hi
  injection hi with hi
  subst hi
  obtain ⟨mt1, mt2, mt3, mt4, mt5, mt6, mt7, mt8⟩ := mtuStep_fields o p2
  have pt : p.type = p2.type := by rw [hp]; exact mt6
  have pu : p.untagged = p2.untagged := by rw [hp]; exact mt7
  have pg : p.tagged = p2.tagged := by rw [hp]; exact mt8
  refine ⟨⟨_, p1, p2, hlmv, hm, pt, pu, pg⟩, ?_, ?_, ?_⟩
  · intro v hu
    rw [pu]; exact lmv_untagged_of_some hu hm
  · intro ht
    rw [pg]; exact lmv_tagged_of_ne ht hm
  · intro hmo hu ht
    rw [lmv_noop p1 hmo hu ht] at hm
    injection hm with hm
    subst hm
    refine ⟨?_, ?_, ?_, ?_⟩
    · intro hpm; rw [pt]; exact lmv_type_of_access hpm hlmv
    · intro hpm; rw [pt]; exact lmv_type_of_tagged hpm hlmv
    · intro v hpv; rw [pu]; exact lmv_untagged_of_some hpv hlmv
    · intro hpt; rw [pg]; exact lmv_tagged_of_ne hpt hlmv

/-- C3 witness: the member `oMember` of Port-channel7, with no switchport
settings of its own, inherits the parent's trunk configuration. -/
theorem c3_lag_parent_order_witness :
    pMember.type = some "trunk" ∧ pMember.untagged = some 10 ∧
    pMember.tagged = some (Tagged.vlans [20, 30]) := by
  obtain ⟨_, _, _, h4⟩ := c3_lag_parent_order nbParent7 oMember pMember
    { name := "Port-channel7", id := 7 } parentTrunk rfl rfl rfl rfl
  obtain ⟨_, b, c, d⟩ := h4 rfl rfl rfl
  exact ⟨b rfl, c 10 rfl, d (by decide)⟩

/-- C5 counterexample: the parent name `"Port-channel 3"` is not of the
form `Port-channel<N>` — a space separates the prefix from the digits — yet
normalization does not fail with a parse error: Python's `int` strips the
whitespace and the member port loads successfully with `lag = 3` and
`lagmode = "active"`. -/
theorem c5_spaced_name_counterexample :
    Port.load_from_netbox nbParent9 oSpacedLag = Except.ok pSpacedLag ∧
    pSpacedLag.lag = some 3 ∧ pSpacedLag.lagmode = some "active" :=
  ⟨rfl, rfl, rfl⟩

/-- C5 amended: if the LAG parent name starts with `"Port-channel"` and its
remaining suffix parses under Python `int` semantics (optional surrounding
whitespace, an optional sign, decimal digits), `lag` is set to the parsed
integer — in particular to `N` for a plain digit suffix `<N>` — and
`lagmode` to `"active"`; a name without the `Port-channel` prefix fails
with the cannot-parse assertion error, and a prefix-bearing name whose
suffix `int` cannot parse fails with a `ValueError`. -/
theorem c5_lag_number_parse :
    (∀ name : String, pyStartsWith name "Port-channel" = false →
        lag_number_of_name name = Except.error (PyErr.assertionError
          "Cannot parse link-aggregation number from parent lag interface name")) ∧
    (∀ (name : String) (n : Int), pyStartsWith name "Port-channel" = true →
        pyInt (strDrop name 12) = some n →
        lag_number_of_name name = Except.ok n) ∧
    (∀ name : String, pyStartsWith name "Port-channel" = true →
        pyInt (strDrop name 12) = none →
        lag_number_of_name name
          = Except.error (PyErr.valueError "invalid literal for int with base 10")) ∧
    (∀ (nb : Netbox) (o : IfaceRecord) (p : Port) (l : LagRef),
        Port.load_from_netbox nb o = Except.ok p → p.clean = false → o.lag = some l →
        ∃ n, lag_number_of_name l.name = Except.ok n ∧
          p.lag = some n ∧ p.lagmode = some "active") := by
  refine ⟨?_, ?_, ?_, ?_⟩
  · intro name hs
    unfold lag_number_of_name
    rw [hs]
    simp
  · intro name n hs hp
    unfold lag_number_of_name
    rw [hs, if_pos rfl, hp]
  · intro name hs hp
    unfold lag_number_of_name
    rw [hs, if_pos rfl, hp]
  · intro nb o p l h hc hl
    obtain ⟨p0, p1, p2, hd, hlag, hm, hp⟩ := load_ok_inv h hc
    obtain ⟨n, iface, hn, hi, hlmv⟩ := lagStep_some_inv hl hlag
    have l3 : p.lag = p2.lag := by rw [hp]; exact (mtuStep_fields o p2).2.2.2.1
    have g3 : p.lagmode = p2.lagmode := by rw [hp]; exact (mtuStep_fields o p2).2.2.2.2.1
    refine ⟨n, hn, ?_, ?_⟩
    · rw [l3, (lmv_ok_fields hm).2.2.2.2.1, (lmv_ok_fields hlmv).2.2.2.2.1]
    · rw [g3, (lmv_ok_fields hm).2.2.2.2.2, (lmv_ok_fields hlmv).2.2.2.2.2]

/-- C5 witness for the amended claim: a digit suffix parses to its number, a
name without the prefix raises the assertion, an unparsable suffix raises
the `ValueError`. -/
theorem c5_lag_number_parse_witness :
    lag_number_of_name "Port-channel7" = Except.ok 7 ∧
    lag_number_of_name "Ethernet1" = Except.error (PyErr.assertionError
      "Cannot parse link-aggregation number from parent lag interface name") ∧
    lag_number_of_name "Port-channelX"
      = Except.error (PyErr.valueError "invalid literal for int with base 10") :=
  ⟨c5_lag_number_parse.2.1 "Port-channel7" 7 rfl rfl,
   c5_lag_number_parse.1 "Ethernet1" rfl,
   c5_lag_number_parse.2.2.1 "Port-channelX" rfl rfl⟩

/-- C6: `_get_device_id` tries the bare device name first and then
`name.<search_domain>`, returning the id of the first lookup that succeeds
(yields a truthy id — `None` and `0` are falsy under the `if r:` test);
when neither resolves, it raises `Device not found. Tried: <names>` and
`main` converts that failure into exit code 1. -/
theorem c6_device_resolution (nb : Netbox) (domain name : String) :
    (∀ r : Nat, try_get_device nb name = some r → r ≠ 0 →
       get_device_id nb domain name = Except.ok r ∧
       main_resolve_device nb domain name = Except.ok r) ∧
    ((try_get_device nb name = none ∨ try_get_device nb name = some 0) →
       ∀ r : Nat, try_get_device nb (name ++ "." ++ domain) = some r → r ≠ 0 →
         get_device_id nb domain name = Except.ok r ∧
         main_resolve_device nb domain name = Except.ok r) ∧
    ((try_get_device nb name = none ∨ try_get_device nb name = some 0) →
     (try_get_device nb (name ++ "." ++ domain) = none ∨
        try_get_device nb (name ++ "." ++ domain) = some 0) →
       get_device_id nb domain name = Except.error (PyErr.assertionError
         ("Device not found. Tried: " ++
           String.intercalate ", " [name, name ++ "." ++ domain])) ∧
       main_resolve_device nb domain name = Except.error 1) := by
  refine ⟨?_, ?_, ?_⟩
  · intro r h1 h2
    have hggo : get_device_id_go nb [name, name ++ "." ++ domain] = some r := by
      simp only [get_device_id_go]
      rw [h1]
      dsimp only
      rw [if_pos h2]
    have hg : get_device_id nb domain name = Except.ok r := by
      unfold get_device_id
      rw [hggo]
    exact ⟨hg, by unfold main_resolve_device; rw [hg]⟩
  · intro hfirst r h1 h2
    have hggo : get_device_id_go nb [name, name ++ "." ++ domain] = some r := by
      simp only [get_device_id_go]
      rcases hfirst with hf | hf <;> rw [hf, h1] <;> dsimp only
      · rw [if_pos h2]
      · rw [if_neg (fun hh => hh rfl), if_pos h2]
    have hg : get_device_id nb domain name = Except.ok r := by
      unfold get_device_id
      rw [hggo]
    exact ⟨hg, by unfold main_resolve_device; rw [hg]⟩
  · exact get_device_id_not_found nb domain name

/-- C6 witness: against `nbDomainOnly` the bare name `"sw1"` does not
resolve, the suffixed name resolves to id 5, and resolution returns 5. -/
theorem c6_device_resolution_witness :
    get_device_id nbDomainOnly "example.net" "sw1" = Except.ok 5 ∧
    main_resolve_device nbDomainOnly "example.net" "sw1" = Except.ok 5 :=
  (c6_device_resolution nbDomainOnly "example.net" "sw1").2.1 (Or.inl rfl) 5 rfl
    (by decide)

/-- C10 counterexample: with the inventory unreachable (every read raises a
transport error), the transport error raised during device-name lookup does
not propagate: the bare `except:` of `__try_get_device` converts it into a
failed lookup and the run ends with the device-not-found assertion and exit
code 1 instead. -/
theorem c10_transport_swallowed_counterexample :
    nbFail.filterDevices "sw1" = Except.error (PyErr.transportError "connection refused") ∧
    get_device_id nbFail "example.net" "sw1" = Except.error (PyErr.assertionError
      ("Device not found. Tried: " ++
        String.intercalate ", " ["sw1", "sw1" ++ "." ++ "example.net"])) ∧
    main_resolve_device nbFail "example.net" "sw1" = Except.error 1 :=
  ⟨rfl, rfl, rfl⟩

/-- C10 amended: an error raised by an inventory read propagates unchanged
out of port normalization (the LAG-parent fetch is the only read there),
but any error raised during device-name lookup — transport errors included —
is swallowed by the bare `except:` of `__try_get_device` and converted into
a failed lookup, so an unreachable inventory surfaces as device-not-found
and exit code 1 rather than as the transport error. -/
theorem c10_transport_propagation :
    (∀ (nb : Netbox) (nm : String) (e : PyErr),
        nb.filterDevices nm = Except.error e → try_get_device nb nm = none) ∧
    (∀ (nb : Netbox) (domain nm : String) (e1 e2 : PyErr),
        nb.filterDevices nm = Except.error e1 →
        nb.filterDevices (nm ++ "." ++ domain) = Except.error e2 →
        get_device_id nb domain nm = Except.error (PyErr.assertionError
          ("Device not found. Tried: " ++
            String.intercalate ", " [nm, nm ++ "." ++ domain])) ∧
        main_resolve_device nb domain nm = Except.error 1) ∧
    (∀ (nb : Netbox) (o : IfaceRecord) (l : LagRef) (n : Int) (e : PyErr),
        ¬(o.connected_endpoint_type = none ∧ o.type_value ≠ "lag") →
        o.description ≠ "" → o.lag = some l →
        lag_number_of_name l.name = Except.ok n →
        nb.getInterface l.id = Except.error e →
        Port.load_from_netbox nb o = Except.error e) := by
  have swallow : ∀ (nb : Netbox) (nm : String) (e : PyErr),
      nb.filterDevices nm = Except.error e → try_get_device nb nm = none := by
    intro nb nm e hf
    unfold try_get_device
    rw [hf]
  refine ⟨swallow, ?_, ?_⟩
  · intro nb domain nm e1 e2 hf1 hf2
    exact get_device_id_not_found nb domain nm
      (Or.inl (swallow nb nm e1 hf1))
      (Or.inl (swallow nb (nm ++ "." ++ domain) e2 hf2))
  · intro nb o l n e hnc hd hl hn hi
    unfold Port.load_from_netbox
    rw [if_neg hnc]
    rw [descrStep_of_desc o _ hd]
    dsimp only
    rw [lagStep_err _ hl hn hi]

/-- C10 witness for the amended claim: a transport error from the LAG-parent
fetch propagates out of `Port.load_from_netbox` unchanged, while the same
transport error during device lookup is converted into a missed lookup. -/
theorem c10_transport_propagation_witness :
    Port.load_from_netbox nbFail oMember
      = Except.error (PyErr.transportError "connection refused") ∧
    try_get_device nbFail "sw1" = none :=
  ⟨c10_transport_propagation.2.2 nbFail oMember { name := "Port-channel7", id := 7 } 7
     (PyErr.transportError "connection refused") (by decide) (by decide) rfl rfl rfl,
   c10_transport_propagation.1 nbFail "sw1" (PyErr.transportError "connection refused") rfl⟩

end Nbnak
